import Mathlib

/-!
Verification development for the A-Level question perturbation pipeline
(`script.py`, `clear.py`).

The pipeline orchestrates four stages (Transcription, Perturbation,
Validation, Extraction) around an external language-model service.  The
service and the JSON parser are modelled as oracles: for each work unit the
environment supplies a `UnitResponse`, which says whether the service call
raised, whether `json.loads` raised, or which JSON value was parsed (together
with the token counts the service reported).  File contents are modelled
explicitly (`List Json` for the three newline-delimited stage logs, an
`Option String` for the final LaTeX document), so that truncate-before-write
and leave-untouched-on-error behaviours are visible in the model.
-/

set_option autoImplicit false

namespace Pipeline

/-- A parsed JSON value, as produced by `json.loads`.  Numbers are modelled as
integers (no claim depends on fractional values); objects are association
lists with first-match lookup. -/
inductive Json where
  | null : Json
  | bool (b : Bool) : Json
  | num (n : Int) : Json
  | str (s : String) : Json
  | arr (elems : List Json) : Json
  | obj (fields : List (String × Json)) : Json
deriving Repr

/-- Python truthiness of a JSON value (`if not well_posed` in
`run_validation_stage`): `None`/`False`/`0`/empty string/empty list/empty
dict are falsy, everything else is truthy. -/
def Json.truthy : Json → Bool
  | .null => false
  | .bool b => b
  | .num n => n != 0
  | .str s => s != ""
  | .arr elems => !elems.isEmpty
  | .obj fields => !fields.isEmpty

/-- Key lookup in a JSON object's field list (first match, like a dict). -/
def lookupField (fields : List (String × Json)) (k : String) : Option Json :=
  match fields with
  | [] => none
  | (k', v) :: rest => if k' = k then some v else lookupField rest k

/-- Substring test on strings, modelling Python `needle in hay` for `str`. -/
def strContains (hay needle : String) : Bool :=
  decide (List.IsInfix needle.data hay.data)

/-- Python's `k in j` for a parsed JSON value `j`: key membership for a dict,
element membership for a list, substring for a string; raises `TypeError`
(modelled as `.error ()`) for `None`, booleans and numbers. -/
def pyContains (j : Json) (k : String) : Except Unit Bool :=
  match j with
  | .obj fields => .ok (fields.any (fun p => p.1 = k))
  | .arr elems => .ok (elems.any (fun e => match e with | .str s => s = k | _ => false))
  | .str s => .ok (strContains s k)
  | _ => .error ()

/-- Python's `j[k]` subscription with a string key: dict lookup (KeyError if
absent); `TypeError` for every non-dict value. -/
def pyGetItem (j : Json) (k : String) : Except Unit Json :=
  match j with
  | .obj fields =>
    match lookupField fields k with
    | some v => .ok v
    | none => .error ()
  | _ => .error ()

/-- Whether `v[:1000]` succeeds in Python: strings and lists are sliceable,
`None`/booleans/numbers/dicts raise `TypeError`. -/
def sliceable : Json → Bool
  | .str _ => true
  | .arr _ => true
  | _ => false

/-- The outcome the environment supplies for one service round trip followed
by `json.loads`:
* `svcError` — the API call itself raised (no tokens were returned);
* `parseError i o` — the call returned usage counters `i`, `o` but the
  response text was not valid JSON (`json.loads` raised);
* `parsed j i o` — the response text parsed to the JSON value `j`, with
  usage counters `i`, `o`. -/
inductive UnitResponse where
  | svcError : UnitResponse
  | parseError (inTok outTok : Nat) : UnitResponse
  | parsed (j : Json) (inTok outTok : Nat) : UnitResponse

/-- Token counts accumulated for one unit.  In every stage the totals are
updated right after the service call returns, before `json.loads` runs, so a
parse failure still contributes its counts; a service error contributes
nothing. -/
def unitTokens : UnitResponse → Nat × Nat
  | .svcError => (0, 0)
  | .parseError i o => (i, o)
  | .parsed _ i o => (i, o)

/-- Result of one of the three per-item stages: the stage-log file content
after the run, the in-memory accepted-result sequence, and the accumulated
token totals.  In the source the same value is written to the file and
appended to the list in the same branch; both are tracked so the
file/sequence agreement is a provable statement rather than an artefact. -/
structure StageOut where
  log : List Json
  accepted : List Json
  inTok : Nat
  outTok : Nat
deriving Repr

/-- The payload a Transcription/Perturbation unit contributes when accepted:
the parsed object, provided parsing succeeded and the `"question"`-membership
test succeeded with `True` (an `in`-test `TypeError` is caught by the loop's
`except` and skips the unit, just like a missing field). -/
def acceptedPayload : UnitResponse → Option Json
  | .parsed j _ _ =>
    match pyContains j "question" with
    | .ok true => some j
    | _ => none
  | _ => none

/-- The shared per-unit loop of `run_transcription_stage` (lines 212-240) and
`run_perturbation_stage` (lines 316-348): for each unit call the service
(`oracle`), accumulate usage on return, parse, check the `"question"` field,
and on acceptance append the parsed object to the file and to the result
list; every failure path is `continue`. -/
def runUnitsTP {α : Type} (oracle : α → UnitResponse) : List α → StageOut
  | [] => ⟨[], [], 0, 0⟩
  | u :: rest =>
    let r := oracle u
    let tail := runUnitsTP oracle rest
    let tin := (unitTokens r).1
    let tout := (unitTokens r).2
    match acceptedPayload r with
    | some j => ⟨j :: tail.log, j :: tail.accepted, tin + tail.inTok, tout + tail.outTok⟩
    | none => ⟨tail.log, tail.accepted, tin + tail.inTok, tout + tail.outTok⟩

/-- Model of `run_transcription_stage`: with no images it returns early (file left as
it was); otherwise the output file is deleted (`unlink`) before the loop, so
the final file content is exactly what this run appended. -/
def run_transcription_stage (oracle : String → UnitResponse) (images : List String)
    (priorLog : List Json) : StageOut :=
  if images.isEmpty then ⟨priorLog, [], 0, 0⟩
  else runUnitsTP oracle images

/-- Model of `run_perturbation_stage`: same skeleton as transcription, over the
transcribed questions. -/
def run_perturbation_stage (oracle : Json → UnitResponse) (questions : List Json)
    (priorLog : List Json) : StageOut :=
  if questions.isEmpty then ⟨priorLog, [], 0, 0⟩
  else runUnitsTP oracle questions

/-- How the Validation loop body classifies one unit from its parsed
response (lines 432-449): `well_posed = validation_result.get("well_posed",
False)` with Python truthiness decides acceptance; a rejected unit's
reasoning is `validation_result.get("reasoning", "No reasoning provided")`.
A non-dict response makes `.get` raise (`errored`), as does slicing a
non-sliceable reasoning in the rejection report; either exception is caught
by the loop's `except` and the unit is skipped. -/
inductive ValidationVerdict where
  | errored : ValidationVerdict
  | rejected (reasoning : Json) : ValidationVerdict
  | accepted : ValidationVerdict
deriving Repr

/-- Classify one Validation unit's response. -/
def validateItem : UnitResponse → ValidationVerdict
  | .svcError => .errored
  | .parseError _ _ => .errored
  | .parsed j _ _ =>
    match j with
    | .obj fields =>
      let wellPosed := (lookupField fields "well_posed").getD (.bool false)
      let reasoning := (lookupField fields "reasoning").getD (.str "No reasoning provided")
      if wellPosed.truthy then .accepted
      else if sliceable reasoning then .rejected reasoning
      else .errored
    | _ => .errored

/-- The per-unit loop of `run_validation_stage` (lines 416-453): on
acceptance the *input* question `q` is written to the file and appended to
the accepted list; the parsed validation response is used only for the
verdict. -/
def runUnitsValidation (oracle : Json → UnitResponse) : List Json → StageOut
  | [] => ⟨[], [], 0, 0⟩
  | q :: rest =>
    let r := oracle q
    let tail := runUnitsValidation oracle rest
    let tin := (unitTokens r).1
    let tout := (unitTokens r).2
    match validateItem r with
    | .accepted => ⟨q :: tail.log, q :: tail.accepted, tin + tail.inTok, tout + tail.outTok⟩
    | _ => ⟨tail.log, tail.accepted, tin + tail.inTok, tout + tail.outTok⟩

/-- Model of `run_validation_stage`: early return with the file untouched when there
is no input; otherwise the output file is deleted before the loop. -/
def run_validation_stage (oracle : Json → UnitResponse) (questions : List Json)
    (priorLog : List Json) : StageOut :=
  if questions.isEmpty then ⟨priorLog, [], 0, 0⟩
  else runUnitsValidation oracle questions

/-- Result of the Extraction stage: the final `.tex` file content (`none` if
the file does not exist) and the token counts the stage returns. -/
structure ExtractionOut where
  texFile : Option String
  inTok : Nat
  outTok : Nat
deriving Repr

/-- Model of `run_extraction_stage` (lines 529-590).  The output document is *not*
reset up front: the file is opened for writing only after the response
parsed and the `"latex_document"` membership test passed.  Early returns
(no validated questions, no examples — the missing-examples-directory check
is folded into the empty-examples case), a service/parse exception, or a
membership `TypeError` leave the file untouched and return `(0, 0)`; a
response lacking the field leaves the file untouched but returns the real
token counts; a string field value is written verbatim; a non-string field
value truncates the file (`open(..., "w")`) and then `f.write` raises, so
the except-path returns `(0, 0)` with the file left empty. -/
def run_extraction_stage (oracle : List Json → UnitResponse) (validated : List Json)
    (examples : List (String × String)) (priorTex : Option String) : ExtractionOut :=
  if validated.isEmpty then ⟨priorTex, 0, 0⟩
  else if examples.isEmpty then ⟨priorTex, 0, 0⟩
  else
    match oracle validated with
    | .svcError => ⟨priorTex, 0, 0⟩
    | .parseError _ _ => ⟨priorTex, 0, 0⟩
    | .parsed j i o =>
      match pyContains j "latex_document" with
      | .error _ => ⟨priorTex, 0, 0⟩
      | .ok false => ⟨priorTex, i, o⟩
      | .ok true =>
        match pyGetItem j "latex_document" with
        | .error _ => ⟨priorTex, 0, 0⟩
        | .ok (.str s) => ⟨some s, i, o⟩
        | .ok _ => ⟨some "", 0, 0⟩

/-- Constant `INPUT_TOKEN_COST = 1.25 / 1_000_000` (line 32), as an exact rational:
$1.25 per million input tokens. -/
def INPUT_TOKEN_COST : ℚ := 1.25 / 1000000

/-- Constant `OUTPUT_TOKEN_COST = 10.00 / 1_000_000` (line 33): $10.00 per million
output tokens. -/
def OUTPUT_TOKEN_COST : ℚ := 10.00 / 1000000

/-- The cost formula shared by `print_cost_report` (lines 112-116) and the
final summary in `main` (lines 701-703):
`input_tokens * INPUT_TOKEN_COST + output_tokens * OUTPUT_TOKEN_COST`. -/
def totalCost (inputTokens outputTokens : Nat) : ℚ :=
  inputTokens * INPUT_TOKEN_COST + outputTokens * OUTPUT_TOKEN_COST

/-- Python truthiness of `s.strip()`: the stripped string is non-empty
exactly when `s` contains some non-whitespace character. -/
def hasContent (s : String) : Bool :=
  s.data.any (fun c => !c.isWhitespace)

/-- The special-instruction injection block, inlined identically in
`transcribe_image` (lines 140-146), `perturb_question` (lines 259-265) and
`extract_to_latex` (lines 478-484): if the template contains the marker
`"\x7bspecial_prompt\x7d"`, replace every occurrence by the instruction when its
strip is non-empty and by `"None (use default rules)"` otherwise; if the
template has no marker, append a labelled suffix when the stripped
instruction is non-empty and nothing otherwise. -/
def injectSpecialPrompt (prompt_text special_prompt : String) : String :=
  if strContains prompt_text "\x7bspecial_prompt\x7d" then
    let special_prompt_text :=
      if hasContent special_prompt then special_prompt else "None (use default rules)"
    prompt_text.replace "\x7bspecial_prompt\x7d" special_prompt_text
  else
    let special_prompt_text :=
      if hasContent special_prompt then "\n\n**SPECIAL INSTRUCTIONS:** " ++ special_prompt
      else ""
    prompt_text ++ special_prompt_text

/-- Model of `ask_special_prompt` (lines 96-109): returns `""` immediately in
non-interactive mode; otherwise returns the user's stripped input (the
`response if response else ""` collapse is the identity on the stripped
string). -/
def ask_special_prompt (nonInteractive : Bool) (userInput : String → String)
    (stage_name : String) : String :=
  if nonInteractive then "" else (userInput stage_name).trim

/-- One of the four pipeline stages, for recording which stage runners the
coordinator actually invoked. -/
inductive Stage where
  | transcription : Stage
  | perturbation : Stage
  | validation : Stage
  | extraction : Stage
deriving DecidableEq, Repr

/-- The environment a pipeline run interacts with: the interactivity flag,
the operator's free-text answers, the sorted image list, one service oracle
per stage, and the style-example documents. -/
structure Env where
  nonInteractive : Bool
  userInput : String → String
  images : List String
  tOracle : String → UnitResponse
  pOracle : Json → UnitResponse
  vOracle : Json → UnitResponse
  eOracle : List Json → UnitResponse
  examples : List (String × String)

/-- The four persisted output artifacts. -/
structure FS where
  transcribedLog : List Json
  perturbedLog : List Json
  validatedLog : List Json
  finalTex : Option String
deriving Repr

/-- What one `main` run did: the resulting artifacts, the stage runners
invoked in order, and the `ask_special_prompt` calls made, each recorded as
(stage name passed, instruction returned). -/
structure RunTrace where
  fs : FS
  stagesRun : List Stage
  askedSpecial : List (String × String)
deriving Repr

/-- Model of `main` (lines 597-739).  After each of the first three stages
the coordinator returns early when the stage accepted nothing; Validation is
the one stage run without an `ask_special_prompt` call (line 667 prints a
fixed notice instead).  The optional image-directory cleanup after
transcription touches only the image store, not any modelled artifact, and
is omitted. -/
def main (env : Env) (fs0 : FS) : RunTrace :=
  let sp1 := ask_special_prompt env.nonInteractive env.userInput "TRANSCRIPTION"
  let t := run_transcription_stage env.tOracle env.images fs0.transcribedLog
  let fs1 : FS := { fs0 with transcribedLog := t.log }
  if t.accepted.isEmpty then
    ⟨fs1, [.transcription], [("TRANSCRIPTION", sp1)]⟩
  else
    let sp2 := ask_special_prompt env.nonInteractive env.userInput "PERTURBATION"
    let p := run_perturbation_stage env.pOracle t.accepted fs1.perturbedLog
    let fs2 : FS := { fs1 with perturbedLog := p.log }
    if p.accepted.isEmpty then
      ⟨fs2, [.transcription, .perturbation], [("TRANSCRIPTION", sp1), ("PERTURBATION", sp2)]⟩
    else
      let v := run_validation_stage env.vOracle p.accepted fs2.validatedLog
      let fs3 : FS := { fs2 with validatedLog := v.log }
      if v.accepted.isEmpty then
        ⟨fs3, [.transcription, .perturbation, .validation],
          [("TRANSCRIPTION", sp1), ("PERTURBATION", sp2)]⟩
      else
        let sp4 := ask_special_prompt env.nonInteractive env.userInput "LaTeX EXTRACTION"
        let e := run_extraction_stage env.eOracle v.accepted env.examples fs3.finalTex
        ⟨{ fs3 with finalTex := e.texFile },
          [.transcription, .perturbation, .validation, .extraction],
          [("TRANSCRIPTION", sp1), ("PERTURBATION", sp2), ("LaTeX EXTRACTION", sp4)]⟩

end Pipeline

namespace Clear

/-- The four output files `clear.py` manages (lines 10-16). -/
def OUTPUT_FILES : List String :=
  ["output/1_transcribed.jsonl", "output/2_perturbed.jsonl",
   "output/3_validated.jsonl", "output/4_final_document.tex"]

/-- Model of `clear_output_files` (lines 31-65) over a file store mapping a
path to its content (`none` = file does not exist).  It lists the existing
output files with their byte sizes, returns unchanged if none exist or the
operator declines, and otherwise empties each existing file in place
(`open(file, "w")` then close), leaving it existing with zero bytes. -/
def clear_output_files (confirm : Bool) (fs : String → Option String) :
    List (String × Nat) × (String → Option String) :=
  let existing := OUTPUT_FILES.filter (fun f => (fs f).isSome)
  if existing.isEmpty then ([], fs)
  else
    let listing := existing.map (fun f => (f, ((fs f).getD "").utf8ByteSize))
    if !confirm then (listing, fs)
    else (listing, fun f => if f ∈ existing then some "" else fs f)

end Clear

namespace Pipeline

/-- Helper: in the Transcription/Perturbation loop the file content and the
accepted-result list receive exactly the same elements. -/
theorem runUnitsTP_log_eq_accepted {α : Type} (oracle : α → UnitResponse) (us : List α) :
    (runUnitsTP oracle us).log = (runUnitsTP oracle us).accepted := by
  induction us with
  | nil => rfl
  | cons u rest ih =>
    simp only [runUnitsTP]
    cases h : acceptedPayload (oracle u) <;> simp [h, ih]

/-- Helper: the accepted-result list of the Transcription/Perturbation loop
is exactly the accepted payloads of the unit responses, in input order. -/
theorem runUnitsTP_accepted_eq {α : Type} (oracle : α → UnitResponse) (us : List α) :
    (runUnitsTP oracle us).accepted = (us.map oracle).filterMap acceptedPayload := by
  induction us with
  | nil => rfl
  | cons u rest ih =>
    simp only [runUnitsTP, List.map_cons, List.filterMap_cons]
    cases h : acceptedPayload (oracle u) <;> simp [h, ih]

/-- Helper: counting identity for `filterMap`: the number of kept elements is
the number attempted minus the number dropped. -/
theorem length_filterMap_sub {α β : Type} (f : α → Option β) (l : List α) :
    (l.filterMap f).length = l.length - l.countP (fun a => (f a).isNone) := by
  induction l with
  | nil => rfl
  | cons a l ih =>
    have hle : l.countP (fun a => (f a).isNone) ≤ l.length := List.countP_le_length _
    cases h : f a with
    | none =>
      simp [List.filterMap_cons, h, List.countP_cons, ih]
    | some b =>
      simp [List.filterMap_cons, h, List.countP_cons, ih]
      omega

/-- Acceptance decision of the Validation loop for one response, as a
Boolean: the unit is accepted exactly when `validateItem` classifies it as
accepted. -/
def vAccepts (r : UnitResponse) : Bool :=
  match validateItem r with
  | .accepted => true
  | _ => false

/-- Helper: Validation's file content and accepted list coincide. -/
theorem runUnitsValidation_log_eq_accepted (oracle : Json → UnitResponse) (qs : List Json) :
    (runUnitsValidation oracle qs).log = (runUnitsValidation oracle qs).accepted := by
  induction qs with
  | nil => rfl
  | cons q rest ih =>
    simp only [runUnitsValidation]
    cases h : validateItem (oracle q) <;> simp [h, ih]

/-- Helper: Validation's accepted list is the input list filtered by the
acceptance decision — every surviving element is an input item, in input
order. -/
theorem runUnitsValidation_accepted_eq (oracle : Json → UnitResponse) (qs : List Json) :
    (runUnitsValidation oracle qs).accepted = qs.filter (fun q => vAccepts (oracle q)) := by
  induction qs with
  | nil => rfl
  | cons q rest ih =>
    simp only [runUnitsValidation, List.filter_cons, vAccepts]
    cases h : validateItem (oracle q) <;> simp [h, ih, vAccepts]

/-- C1: every item accepted by the Validation stage is persisted and returned
as the original pre-validation WorkItem.  The validated StageLog and the
accepted-result sequence both equal the input sequence filtered by the
verdict, so each record is byte-for-byte an input item and the model's
validation output (verdict, reasoning) is never written or merged in. -/
theorem c1_validation_preserves_items (oracle : Json → UnitResponse) (qs : List Json)
    (priorLog : List Json) (hqs : qs ≠ []) :
    (run_validation_stage oracle qs priorLog).log
        = (run_validation_stage oracle qs priorLog).accepted
      ∧ (run_validation_stage oracle qs priorLog).accepted
          = qs.filter (fun q => vAccepts (oracle q))
      ∧ ∀ x ∈ (run_validation_stage oracle qs priorLog).accepted, x ∈ qs := by
  have hne : qs.isEmpty = false := by
    cases qs with
    | nil => exact absurd rfl hqs
    | cons a l => rfl
  unfold run_validation_stage
  rw [hne]
  simp only [Bool.false_eq_true, if_false]
  refine ⟨runUnitsValidation_log_eq_accepted oracle qs,
    runUnitsValidation_accepted_eq oracle qs, ?_⟩
  intro x hx
  rw [runUnitsValidation_accepted_eq] at hx
  exact List.mem_of_mem_filter hx

/-- Witness for C1 at a concrete two-item input where the validator accepts
the first item and rejects the second. -/
theorem c1_validation_preserves_items_witness :
    ([Pipeline.Json.str "q1", Pipeline.Json.str "q2"] ≠ ([] : List Pipeline.Json))
      ∧ ((run_validation_stage
            (fun q => match q with
              | .str "q1" => .parsed (.obj [("well_posed", .bool true)]) 3 4
              | _ => .parsed (.obj [("well_posed", .bool false),
                  ("reasoning", .str "ambiguous")]) 5 6)
            [Pipeline.Json.str "q1", Pipeline.Json.str "q2"] []).accepted
          = [Pipeline.Json.str "q1"]) := by
  refine ⟨by simp, ?_⟩
  have h := c1_validation_preserves_items
    (fun q => match q with
      | .str "q1" => .parsed (.obj [("well_posed", .bool true)]) 3 4
      | _ => .parsed (.obj [("well_posed", .bool false),
          ("reasoning", .str "ambiguous")]) 5 6)
    [Pipeline.Json.str "q1", Pipeline.Json.str "q2"] [] (by simp)
  rw [h.2.1]
  rfl

/-- Helper: the accepted list of the Transcription stage, with the empty
input collapsed. -/
theorem run_transcription_stage_accepted (oracle : String → UnitResponse)
    (images : List String) (priorLog : List Json) :
    (run_transcription_stage oracle images priorLog).accepted
      = (images.map oracle).filterMap acceptedPayload := by
  cases images with
  | nil => rfl
  | cons a l =>
    simpa [run_transcription_stage] using runUnitsTP_accepted_eq oracle (a :: l)

/-- Helper: the accepted list of the Perturbation stage, with the empty
input collapsed. -/
theorem run_perturbation_stage_accepted (oracle : Json → UnitResponse)
    (questions : List Json) (priorLog : List Json) :
    (run_perturbation_stage oracle questions priorLog).accepted
      = (questions.map oracle).filterMap acceptedPayload := by
  cases questions with
  | nil => rfl
  | cons a l =>
    simpa [run_perturbation_stage] using runUnitsTP_accepted_eq oracle (a :: l)

/-- C2: per-unit failure isolation in Transcription and Perturbation.  The
accepted-result sequence is the input units' responses filtered to the
accepted payloads, in input order — so a failing unit `k` removes only
itself (units `k+1..N` still contribute, order preserved, no abort), and the
accepted length is exactly attempted minus failed. -/
theorem c2_stage_isolation (tOracle : String → UnitResponse) (images : List String)
    (pOracle : Json → UnitResponse) (questions : List Json) (priorT priorP : List Json) :
    ((run_transcription_stage tOracle images priorT).accepted
        = (images.map tOracle).filterMap acceptedPayload
      ∧ (run_transcription_stage tOracle images priorT).accepted.length
          = images.length - (images.map tOracle).countP (fun r => (acceptedPayload r).isNone))
    ∧ ((run_perturbation_stage pOracle questions priorP).accepted
        = (questions.map pOracle).filterMap acceptedPayload
      ∧ (run_perturbation_stage pOracle questions priorP).accepted.length
          = questions.length
              - (questions.map pOracle).countP (fun r => (acceptedPayload r).isNone)) := by
  refine ⟨⟨run_transcription_stage_accepted tOracle images priorT, ?_⟩,
    ⟨run_perturbation_stage_accepted pOracle questions priorP, ?_⟩⟩
  · rw [run_transcription_stage_accepted, length_filterMap_sub, List.length_map]
  · rw [run_perturbation_stage_accepted, length_filterMap_sub, List.length_map]

/-- C6: the cost formula at the claimed instance: one million input tokens
and one million output tokens cost exactly $11.25 (= 45/4), and scaling any
token counts by the per-million rates satisfies
`totalCost i o * 1000000 = i * 1.25 + o * 10`. -/
theorem c6_cost_exact :
    totalCost 1000000 1000000 = (11.25 : ℚ)
      ∧ totalCost 1000000 1000000 = (45 : ℚ) / 4
      ∧ ∀ i o : Nat, totalCost i o * 1000000 = (i : ℚ) * 1.25 + (o : ℚ) * 10 := by
  refine ⟨?_, ?_, ?_⟩
  · norm_num [totalCost, INPUT_TOKEN_COST, OUTPUT_TOKEN_COST]
  · norm_num [totalCost, INPUT_TOKEN_COST, OUTPUT_TOKEN_COST]
  · intro i o
    simp only [totalCost, INPUT_TOKEN_COST, OUTPUT_TOKEN_COST]
    ring

/-- Counterexample for C8: claim C8 states that whenever the template lacks
the marker, the rendered prompt is the template followed by the labelled
suffix with the instruction, for *every* instruction.  For the blank
instruction `""` the code appends nothing at all, so the rendered prompt is
the bare template, not the template plus the labelled suffix. -/
theorem c8_counterexample :
    injectSpecialPrompt "Base prompt" "" = "Base prompt"
      ∧ injectSpecialPrompt "Base prompt" ""
          ≠ "Base prompt" ++ ("\n\n**SPECIAL INSTRUCTIONS:** " ++ "") := by
  constructor
  · decide
  · decide

/-- C8 as amended: rendering is a pure function of (template, instruction);
if the template contains the marker, every marker occurrence is replaced by
the instruction when the instruction has non-whitespace content and by
`"None (use default rules)"` otherwise; if the template lacks the marker,
the labelled suffix is appended only when the instruction has
non-whitespace content, and the template is returned unchanged otherwise. -/
theorem c8_render_amended (template special : String) :
    (strContains template "\x7bspecial_prompt\x7d" = true →
      injectSpecialPrompt template special
        = template.replace "\x7bspecial_prompt\x7d"
            (if hasContent special then special else "None (use default rules)"))
    ∧ (strContains template "\x7bspecial_prompt\x7d" = false →
      injectSpecialPrompt template special
        = if hasContent special then
            template ++ ("\n\n**SPECIAL INSTRUCTIONS:** " ++ special)
          else template) := by
  constructor
  · intro h
    simp [injectSpecialPrompt, h]
  · intro h
    simp only [injectSpecialPrompt, h, Bool.false_eq_true, if_false]
    split
    · rfl
    · exact String.append_empty template

/-- Witness for C8-amended at concrete inputs: a template containing the
marker with a non-blank instruction, and a marker-free template with a blank
instruction. -/
theorem c8_render_amended_witness :
    (strContains "A \x7bspecial_prompt\x7d B" "\x7bspecial_prompt\x7d" = true
      ∧ injectSpecialPrompt "A \x7bspecial_prompt\x7d B" "use radians"
          = ("A \x7bspecial_prompt\x7d B").replace "\x7bspecial_prompt\x7d"
              (if hasContent "use radians" then "use radians"
               else "None (use default rules)"))
    ∧ (strContains "Plain template" "\x7bspecial_prompt\x7d" = false
      ∧ injectSpecialPrompt "Plain template" ""
          = if hasContent "" then
              "Plain template" ++ ("\n\n**SPECIAL INSTRUCTIONS:** " ++ "")
            else "Plain template") := by
  refine ⟨⟨by decide, (c8_render_amended "A \x7bspecial_prompt\x7d B" "use radians").1 (by decide)⟩,
    ⟨by decide, (c8_render_amended "Plain template" "").2 (by decide)⟩⟩

/-- Helper: a key is absent from a field list exactly when the membership
scan returns false. -/
theorem lookupField_none_iff (fields : List (String × Json)) (k : String) :
    lookupField fields k = none ↔ fields.any (fun p => p.1 = k) = false := by
  induction fields with
  | nil => simp [lookupField]
  | cons p rest ih =>
    by_cases h : p.1 = k
    · cases p
      simp_all [lookupField]
    · cases p
      simp_all [lookupField]

/-- C5: when the Extraction response parses as JSON but the object lacks the
`"latex_document"` field, the final output document keeps its prior content
(the file is never opened for writing), the stage reports the error and
returns the unit's token counts normally instead of raising. -/
theorem c5_extraction_missing_field (oracle : List Json → UnitResponse)
    (validated : List Json) (examples : List (String × String)) (priorTex : Option String)
    (fields : List (String × Json)) (i o : Nat)
    (hv : validated ≠ []) (hex : examples ≠ [])
    (hresp : oracle validated = .parsed (.obj fields) i o)
    (hmissing : lookupField fields "latex_document" = none) :
    run_extraction_stage oracle validated examples priorTex = ⟨priorTex, i, o⟩ := by
  have hany : fields.any (fun p => p.1 = "latex_document") = false :=
    (lookupField_none_iff fields "latex_document").1 hmissing
  have hvne : validated.isEmpty = false := by
    cases validated with
    | nil => exact absurd rfl hv
    | cons a l => rfl
  have hexne : examples.isEmpty = false := by
    cases examples with
    | nil => exact absurd rfl hex
    | cons a l => rfl
  unfold run_extraction_stage
  rw [hvne, hexne, hresp]
  simp [pyContains, hany]

/-- Witness for C5: a response object with some other field but no
`"latex_document"`, against a prior document `"OLD"`. -/
theorem c5_extraction_missing_field_witness :
    ([Pipeline.Json.obj [("question", Pipeline.Json.str "q")]] ≠ ([] : List Pipeline.Json))
      ∧ ([("example.tex", "doc")] ≠ ([] : List (String × String)))
      ∧ run_extraction_stage (fun _ => .parsed (.obj [("verdict", .str "ok")]) 9 2)
          [Pipeline.Json.obj [("question", Pipeline.Json.str "q")]]
          [("example.tex", "doc")] (some "OLD")
        = ⟨some "OLD", 9, 2⟩ := by
  refine ⟨by simp, by simp, ?_⟩
  exact c5_extraction_missing_field (fun _ => .parsed (.obj [("verdict", .str "ok")]) 9 2)
    [Pipeline.Json.obj [("question", Pipeline.Json.str "q")]]
    [("example.tex", "doc")] (some "OLD") [("verdict", .str "ok")] 9 2
    (by simp) (by simp) rfl rfl

/-- Helper: the Validation loop distributes over list concatenation: logs and
accepted lists concatenate, token totals add. -/
theorem runUnitsValidation_append (oracle : Json → UnitResponse) (l1 l2 : List Json) :
    runUnitsValidation oracle (l1 ++ l2)
      = ⟨(runUnitsValidation oracle l1).log ++ (runUnitsValidation oracle l2).log,
         (runUnitsValidation oracle l1).accepted ++ (runUnitsValidation oracle l2).accepted,
         (runUnitsValidation oracle l1).inTok + (runUnitsValidation oracle l2).inTok,
         (runUnitsValidation oracle l1).outTok + (runUnitsValidation oracle l2).outTok⟩ := by
  induction l1 with
  | nil => simp [runUnitsValidation]
  | cons q rest ih =>
    simp only [List.cons_append, runUnitsValidation]
    cases h : validateItem (oracle q) <;> simp [h, ih, Nat.add_assoc]

/-- C9: a Validation response that parses to an object without
`"well_posed"` is handled exactly like `well_posed = False`: the item is
rejected with the default reasoning `"No reasoning provided"` (when the
response also lacks `"reasoning"`), it is appended neither to the validated
StageLog nor to the accepted sequence, no exception escapes the unit, and
its token counts still enter the stage totals. -/
theorem c9_missing_wellposed_rejects (oracle : Json → UnitResponse)
    (qs1 qs2 : List Json) (q : Json) (fields : List (String × Json)) (i o : Nat)
    (hresp : oracle q = .parsed (.obj fields) i o)
    (hwp : lookupField fields "well_posed" = none)
    (hreason : lookupField fields "reasoning" = none) :
    validateItem (oracle q) = .rejected (.str "No reasoning provided")
      ∧ (runUnitsValidation oracle (qs1 ++ q :: qs2)).log
          = (runUnitsValidation oracle qs1).log ++ (runUnitsValidation oracle qs2).log
      ∧ (runUnitsValidation oracle (qs1 ++ q :: qs2)).accepted
          = (runUnitsValidation oracle qs1).accepted
              ++ (runUnitsValidation oracle qs2).accepted
      ∧ (runUnitsValidation oracle (qs1 ++ q :: qs2)).inTok
          = (runUnitsValidation oracle qs1).inTok + i
              + (runUnitsValidation oracle qs2).inTok
      ∧ (runUnitsValidation oracle (qs1 ++ q :: qs2)).outTok
          = (runUnitsValidation oracle qs1).outTok + o
              + (runUnitsValidation oracle qs2).outTok := by
  have hv : validateItem (oracle q) = .rejected (.str "No reasoning provided") := by
    rw [hresp]
    simp [validateItem, hwp, hreason, Json.truthy, sliceable]
  have hv2 : validateItem (.parsed (.obj fields) i o)
      = .rejected (.str "No reasoning provided") := by
    rw [← hresp]; exact hv
  have hmid : runUnitsValidation oracle (q :: qs2)
      = ⟨(runUnitsValidation oracle qs2).log, (runUnitsValidation oracle qs2).accepted,
         i + (runUnitsValidation oracle qs2).inTok,
         o + (runUnitsValidation oracle qs2).outTok⟩ := by
    simp only [runUnitsValidation, hresp, unitTokens, hv2]
  refine ⟨hv, ?_, ?_, ?_, ?_⟩ <;> rw [runUnitsValidation_append, hmid] <;> simp <;> omega

/-- Witness for C9 at a concrete singleton input whose validation response
is the object with one unrelated field. -/
theorem c9_missing_wellposed_rejects_witness :
    ((fun _ : Json => UnitResponse.parsed (.obj [("note", .str "n")]) 5 7)
        (Pipeline.Json.str "q") = .parsed (.obj [("note", .str "n")]) 5 7)
      ∧ validateItem ((fun _ : Json => UnitResponse.parsed (.obj [("note", .str "n")]) 5 7)
          (Pipeline.Json.str "q")) = .rejected (.str "No reasoning provided")
      ∧ (runUnitsValidation (fun _ => .parsed (.obj [("note", .str "n")]) 5 7)
          ([] ++ Pipeline.Json.str "q" :: [])).accepted
        = (runUnitsValidation (fun _ => .parsed (.obj [("note", .str "n")]) 5 7) []).accepted
            ++ (runUnitsValidation (fun _ => .parsed (.obj [("note", .str "n")]) 5 7) []).accepted
      ∧ (runUnitsValidation (fun _ => .parsed (.obj [("note", .str "n")]) 5 7)
          ([] ++ Pipeline.Json.str "q" :: [])).inTok
        = (runUnitsValidation (fun _ => .parsed (.obj [("note", .str "n")]) 5 7) []).inTok + 5
            + (runUnitsValidation (fun _ => .parsed (.obj [("note", .str "n")]) 5 7) []).inTok := by
  have h := c9_missing_wellposed_rejects
    (fun _ => .parsed (.obj [("note", .str "n")]) 5 7) [] [] (Pipeline.Json.str "q")
    [("note", .str "n")] 5 7 rfl rfl rfl
  exact ⟨rfl, h.1, h.2.2.1, h.2.2.2.1⟩

/-- Counterexample for C4: claim C4 states that the Extraction output
document is overwritten at the start of the Extraction stage, so that once
the stage has started the artifact never contains content from a prior run.
In this concrete run the Extraction stage starts (non-empty validated
collection, non-empty examples, the service is invoked and answers with an
object lacking `"latex_document"`), yet after the stage the output document
still holds the prior run's content, which is neither the truncated state
nor a fresh document. -/
theorem c4_counterexample :
    (run_extraction_stage (fun _ => .parsed (.obj []) 5 7)
        [Json.obj [("question", Json.str "q")]] [("example.tex", "doc")]
        (some "PRIOR RUN CONTENT")).texFile = some "PRIOR RUN CONTENT"
      ∧ (some "PRIOR RUN CONTENT" : Option String) ≠ some ""
      ∧ (some "PRIOR RUN CONTENT" : Option String) ≠ none := by
  refine ⟨rfl, by decide, by decide⟩

/-- C4 as amended: the three StageLogs are truncated/recreated before any
unit is processed (whenever their stage has input), so after the stage each
contains exactly this run's accepted records; the Extraction output
document, by contrast, is not reset up front: it keeps its prior content
unless a parsed response supplies `"latex_document"` (written verbatim when
the value is a string, the file being left truncated when writing a
non-string value fails). -/
theorem c4_reset_amended (tOracle : String → UnitResponse) (images : List String)
    (pOracle vOracle : Json → UnitResponse) (tqs vqs : List Json)
    (eOracle : List Json → UnitResponse) (validated : List Json)
    (examples : List (String × String)) (pT pP pV : List Json) (priorTex : Option String)
    (himg : images ≠ []) (htq : tqs ≠ []) (hvq : vqs ≠ []) :
    (run_transcription_stage tOracle images pT).log
        = (images.map tOracle).filterMap acceptedPayload
      ∧ (run_perturbation_stage pOracle tqs pP).log
          = (tqs.map pOracle).filterMap acceptedPayload
      ∧ (run_validation_stage vOracle vqs pV).log
          = vqs.filter (fun q => vAccepts (vOracle q))
      ∧ ((run_extraction_stage eOracle validated examples priorTex).texFile = priorTex
        ∨ (run_extraction_stage eOracle validated examples priorTex).texFile = some ""
        ∨ ∃ s j i o, eOracle validated = .parsed j i o
            ∧ pyGetItem j "latex_document" = .ok (.str s)
            ∧ (run_extraction_stage eOracle validated examples priorTex).texFile = some s) := by
  have himg' : images.isEmpty = false := by
    cases images with
    | nil => exact absurd rfl himg
    | cons a l => rfl
  have htq' : tqs.isEmpty = false := by
    cases tqs with
    | nil => exact absurd rfl htq
    | cons a l => rfl
  have hvq' : vqs.isEmpty = false := by
    cases vqs with
    | nil => exact absurd rfl hvq
    | cons a l => rfl
  refine ⟨?_, ?_, ?_, ?_⟩
  · unfold run_transcription_stage
    rw [himg']
    simp only [Bool.false_eq_true, if_false]
    rw [runUnitsTP_log_eq_accepted, runUnitsTP_accepted_eq]
  · unfold run_perturbation_stage
    rw [htq']
    simp only [Bool.false_eq_true, if_false]
    rw [runUnitsTP_log_eq_accepted, runUnitsTP_accepted_eq]
  · unfold run_validation_stage
    rw [hvq']
    simp only [Bool.false_eq_true, if_false]
    rw [runUnitsValidation_log_eq_accepted, runUnitsValidation_accepted_eq]
  · unfold run_extraction_stage
    cases hve : validated.isEmpty with
    | true => simp [hve]
    | false =>
      cases hee : examples.isEmpty with
      | true => simp [hve, hee]
      | false =>
        simp only [hve, hee, Bool.false_eq_true, if_false]
        cases hor : eOracle validated with
        | svcError => simp
        | parseError i o => simp
        | parsed j i o =>
          cases hc : pyContains j "latex_document" with
          | error e => simp [hc]
          | ok b =>
            cases b with
            | false => simp [hc]
            | true =>
              cases hg : pyGetItem j "latex_document" with
              | error e => simp [hc, hg]
              | ok v =>
                cases v with
                | str s =>
                  refine Or.inr (Or.inr ⟨s, j, i, o, rfl, hg, ?_⟩)
                  simp [hc, hg]
                | null => simp [hc, hg]
                | bool b' => simp [hc, hg]
                | num n => simp [hc, hg]
                | arr es => simp [hc, hg]
                | obj fs => simp [hc, hg]

/-- Witness for C4-amended on a concrete successful run of all four
stages. -/
theorem c4_reset_amended_witness :
    (["img1.png"] ≠ ([] : List String))
      ∧ ([Pipeline.Json.obj [("question", Pipeline.Json.str "t")]] ≠ ([] : List Pipeline.Json))
      ∧ ([Pipeline.Json.obj [("question", Pipeline.Json.str "p")]] ≠ ([] : List Pipeline.Json))
      ∧ (run_transcription_stage
            (fun _ => .parsed (.obj [("question", .str "t")]) 1 2) ["img1.png"]
            [Pipeline.Json.str "stale"]).log
          = ((["img1.png"]).map (fun _ => UnitResponse.parsed (.obj [("question", .str "t")]) 1 2)).filterMap
              acceptedPayload := by
  refine ⟨by simp, by simp, by simp, ?_⟩
  exact (c4_reset_amended
    (fun _ => .parsed (.obj [("question", .str "t")]) 1 2) ["img1.png"]
    (fun _ => .parsed (.obj [("question", .str "p")]) 3 4)
    (fun _ => .parsed (.obj [("well_posed", .bool true)]) 5 6)
    [Pipeline.Json.obj [("question", Pipeline.Json.str "t")]]
    [Pipeline.Json.obj [("question", Pipeline.Json.str "p")]]
    (fun _ => .parsed (.obj [("latex_document", .str "tex")]) 7 8)
    [Pipeline.Json.obj [("question", Pipeline.Json.str "p")]]
    [("example.tex", "doc")]
    [Pipeline.Json.str "stale"] [] [] (some "OLD")
    (by simp) (by simp) (by simp)).1

/-- C3: the Coordinator's gating.  If a stage's accepted-result sequence is
empty the pipeline stops there: an empty Transcription result runs nothing
further; an empty Perturbation result means Validation and Extraction never
run; an empty Validation result means Extraction never runs and the final
document is untouched; conversely Extraction runs only when Validation
accepted at least one item. -/
theorem c3_coordinator_gating (env : Env) (fs0 : FS) :
    ((run_transcription_stage env.tOracle env.images fs0.transcribedLog).accepted = [] →
        (main env fs0).stagesRun = [Stage.transcription]
          ∧ (main env fs0).fs.finalTex = fs0.finalTex)
    ∧ ((run_perturbation_stage env.pOracle
          (run_transcription_stage env.tOracle env.images fs0.transcribedLog).accepted
          fs0.perturbedLog).accepted = [] →
        Stage.validation ∉ (main env fs0).stagesRun
          ∧ Stage.extraction ∉ (main env fs0).stagesRun
          ∧ (main env fs0).fs.finalTex = fs0.finalTex)
    ∧ ((run_validation_stage env.vOracle
          (run_perturbation_stage env.pOracle
            (run_transcription_stage env.tOracle env.images fs0.transcribedLog).accepted
            fs0.perturbedLog).accepted
          fs0.validatedLog).accepted = [] →
        Stage.extraction ∉ (main env fs0).stagesRun
          ∧ (main env fs0).fs.finalTex = fs0.finalTex)
    ∧ (Stage.extraction ∈ (main env fs0).stagesRun →
        (run_validation_stage env.vOracle
          (run_perturbation_stage env.pOracle
            (run_transcription_stage env.tOracle env.images fs0.transcribedLog).accepted
            fs0.perturbedLog).accepted
          fs0.validatedLog).accepted ≠ []) := by
  simp only [main]
  cases ht : (run_transcription_stage env.tOracle env.images fs0.transcribedLog).accepted with
  | nil => simp
  | cons a l =>
    simp only [List.isEmpty_cons, Bool.false_eq_true, if_false]
    cases hp : (run_perturbation_stage env.pOracle (a :: l) fs0.perturbedLog).accepted with
    | nil => simp
    | cons b m =>
      simp only [List.isEmpty_cons, Bool.false_eq_true, if_false]
      cases hv : (run_validation_stage env.vOracle (b :: m) fs0.validatedLog).accepted with
      | nil => simp
      | cons c n => simp

/-- Environment for the C3 witness: transcription and perturbation succeed
on one image, but the validator rejects every item (end-to-end scenario C).
-/
def c3Env : Env where
  nonInteractive := true
  userInput := fun _ => ""
  images := ["1.png", "2.png"]
  tOracle := fun _ => .parsed (.obj [("question", .str "T")]) 1 2
  pOracle := fun _ => .parsed (.obj [("question", .str "P")]) 3 4
  vOracle := fun _ =>
    .parsed (.obj [("well_posed", .bool false), ("reasoning", .str "ambiguous")]) 5 6
  eOracle := fun _ => .parsed (.obj [("latex_document", .str "tex")]) 7 8
  examples := [("example.tex", "doc")]

/-- Initial artifacts for the C3 witness, with a surviving final document
from a prior run. -/
def c3Fs : FS where
  transcribedLog := []
  perturbedLog := []
  validatedLog := []
  finalTex := some "OLD TEX"

/-- Witness for C3: with every item rejected by Validation, Extraction is
never invoked and the final document keeps its prior content. -/
theorem c3_coordinator_gating_witness :
    ((run_validation_stage c3Env.vOracle
        (run_perturbation_stage c3Env.pOracle
          (run_transcription_stage c3Env.tOracle c3Env.images c3Fs.transcribedLog).accepted
          c3Fs.perturbedLog).accepted
        c3Fs.validatedLog).accepted = [])
      ∧ (Stage.extraction ∉ (main c3Env c3Fs).stagesRun
        ∧ (main c3Env c3Fs).fs.finalTex = c3Fs.finalTex) := by
  have hyp : (run_validation_stage c3Env.vOracle
      (run_perturbation_stage c3Env.pOracle
        (run_transcription_stage c3Env.tOracle c3Env.images c3Fs.transcribedLog).accepted
        c3Fs.perturbedLog).accepted
      c3Fs.validatedLog).accepted = [] := rfl
  exact ⟨hyp, (c3_coordinator_gating c3Env c3Fs).2.2.1 hyp⟩

/-- Environment for the C7 counterexample: a fully successful run (every
oracle accepts), non-interactive mode. -/
def c7Env : Env where
  nonInteractive := true
  userInput := fun _ => ""
  images := ["1.png"]
  tOracle := fun _ => .parsed (.obj [("question", .str "T")]) 1 2
  pOracle := fun _ => .parsed (.obj [("question", .str "P")]) 3 4
  vOracle := fun _ => .parsed (.obj [("well_posed", .bool true)]) 5 6
  eOracle := fun _ => .parsed (.obj [("latex_document", .str "tex")]) 7 8
  examples := [("example.tex", "doc")]

/-- Initial artifacts for the C7 counterexample. -/
def c7Fs : FS where
  transcribedLog := []
  perturbedLog := []
  validatedLog := []
  finalTex := none

/-- Counterexample for C7: claim C7 states that each of the four stages —
Validation in particular — is preceded by a SpecialInstruction request.  In
this complete run all four stages execute, yet only three requests are made
(`TRANSCRIPTION`, `PERTURBATION`, `LaTeX EXTRACTION`); no request is ever
issued for Validation. -/
theorem c7_counterexample :
    (main c7Env c7Fs).stagesRun
        = [Stage.transcription, Stage.perturbation, Stage.validation, Stage.extraction]
      ∧ (main c7Env c7Fs).askedSpecial.map Prod.fst
          = ["TRANSCRIPTION", "PERTURBATION", "LaTeX EXTRACTION"]
      ∧ "VALIDATION" ∉ (main c7Env c7Fs).askedSpecial.map Prod.fst
      ∧ ((main c7Env c7Fs).askedSpecial.map Prod.fst).length ≠ 4 := by
  refine ⟨rfl, rfl, by decide, by decide⟩

/-- C7 as amended: the Coordinator requests an optional SpecialInstruction
before Transcription, Perturbation and Extraction only — never for
Validation, which always runs with the default criteria; in non-interactive
mode every solicited instruction defaults to the empty string. -/
theorem c7_special_requests_amended (env : Env) (fs0 : FS) :
    ("VALIDATION" ∉ (main env fs0).askedSpecial.map Prod.fst)
    ∧ ((main env fs0).askedSpecial.map Prod.fst = ["TRANSCRIPTION"]
        ∨ (main env fs0).askedSpecial.map Prod.fst = ["TRANSCRIPTION", "PERTURBATION"]
        ∨ (main env fs0).askedSpecial.map Prod.fst
            = ["TRANSCRIPTION", "PERTURBATION", "LaTeX EXTRACTION"])
    ∧ (Stage.extraction ∈ (main env fs0).stagesRun →
        (main env fs0).askedSpecial.map Prod.fst
          = ["TRANSCRIPTION", "PERTURBATION", "LaTeX EXTRACTION"])
    ∧ (env.nonInteractive = true →
        ∀ pr ∈ (main env fs0).askedSpecial, pr.2 = "") := by
  simp only [main]
  cases ht : (run_transcription_stage env.tOracle env.images fs0.transcribedLog).accepted with
  | nil =>
    simp [ask_special_prompt]
    intro hni
    simp [hni]
  | cons a l =>
    simp only [List.isEmpty_cons, Bool.false_eq_true, if_false]
    cases hp : (run_perturbation_stage env.pOracle (a :: l) fs0.perturbedLog).accepted with
    | nil =>
      simp [ask_special_prompt]
      intro hni
      simp [hni]
    | cons b m =>
      simp only [List.isEmpty_cons, Bool.false_eq_true, if_false]
      cases hv : (run_validation_stage env.vOracle (b :: m) fs0.validatedLog).accepted with
      | nil =>
        simp [ask_special_prompt]
        intro hni
        simp [hni]
      | cons c n =>
        simp [ask_special_prompt]
        intro hni
        simp [hni]

/-- Witness for C7-amended: in the concrete non-interactive full run the
extraction-stage hypothesis holds and the request list is exactly the three
stage names with empty instructions. -/
theorem c7_special_requests_amended_witness :
    (Stage.extraction ∈ (main c7Env c7Fs).stagesRun)
      ∧ (main c7Env c7Fs).askedSpecial.map Prod.fst
          = ["TRANSCRIPTION", "PERTURBATION", "LaTeX EXTRACTION"]
      ∧ (c7Env.nonInteractive = true)
      ∧ ∀ pr ∈ (main c7Env c7Fs).askedSpecial, pr.2 = "" := by
  have h := c7_special_requests_amended c7Env c7Fs
  exact ⟨by decide, h.2.2.1 (by decide), rfl, h.2.2.2 rfl⟩

end Pipeline

namespace Clear

/-- C10: clearing is idempotent on an already-empty StageLog: the pre-clear
listing reports the file at 0 bytes, the file still exists and is empty
after the clear, and re-running the clear yields the same file store as the
first run (stated pointwise for every path). -/
theorem clear_output_files_snd (fs : String → Option String)
    (hne : (OUTPUT_FILES.filter (fun x => (fs x).isSome)).isEmpty = false) :
    (clear_output_files true fs).2
      = fun g => if g ∈ OUTPUT_FILES.filter (fun x => (fs x).isSome) then some ""
                 else fs g := by
  simp only [clear_output_files, hne, Bool.false_eq_true, if_false, Bool.not_true]

theorem clear_output_files_fst (fs : String → Option String)
    (hne : (OUTPUT_FILES.filter (fun x => (fs x).isSome)).isEmpty = false) :
    (clear_output_files true fs).1
      = (OUTPUT_FILES.filter (fun x => (fs x).isSome)).map
          (fun f => (f, ((fs f).getD "").utf8ByteSize)) := by
  simp only [clear_output_files, hne, Bool.false_eq_true, if_false, Bool.not_true]

theorem c10_clear_idempotent (fs : String → Option String) (f : String)
    (hf : f ∈ OUTPUT_FILES) (hempty : fs f = some "") :
    ((f, 0) ∈ (clear_output_files true fs).1)
      ∧ (clear_output_files true fs).2 f = some ""
      ∧ ∀ g, (clear_output_files true (clear_output_files true fs).2).2 g
          = (clear_output_files true fs).2 g := by
  have hfex : f ∈ OUTPUT_FILES.filter (fun x => (fs x).isSome) := by
    rw [List.mem_filter]
    exact ⟨hf, by rw [hempty]; rfl⟩
  have hne : (OUTPUT_FILES.filter (fun x => (fs x).isSome)).isEmpty = false := by
    cases hc : OUTPUT_FILES.filter (fun x => (fs x).isSome) with
    | nil => rw [hc] at hfex; cases hfex
    | cons a l => rfl
  have hfs1 := clear_output_files_snd fs hne
  refine ⟨?_, ?_, ?_⟩
  · rw [clear_output_files_fst fs hne]
    rw [List.mem_map]
    exact ⟨f, hfex, by rw [hempty]; rfl⟩
  · rw [hfs1]
    simp [hfex]
  · intro g
    have hsame : (OUTPUT_FILES.filter (fun x => ((clear_output_files true fs).2 x).isSome))
        = OUTPUT_FILES.filter (fun x => (fs x).isSome) := by
      apply List.filter_congr
      intro x hx
      rw [hfs1]
      by_cases hxe : x ∈ OUTPUT_FILES.filter (fun x => (fs x).isSome)
      · have : (fs x).isSome = true := (List.mem_filter.1 hxe).2
        simp [hxe, this]
      · simp [hxe]
    have hne2 : (OUTPUT_FILES.filter
        (fun x => ((clear_output_files true fs).2 x).isSome)).isEmpty = false := by
      rw [hsame]; exact hne
    rw [clear_output_files_snd _ hne2, hsame, hfs1]
    by_cases hg : g ∈ OUTPUT_FILES.filter (fun x => (fs x).isSome)
    · simp [hg]
    · simp [hg]

/-- Witness for C10: a store in which the first StageLog exists empty and a
second output file has content. -/
theorem c10_clear_idempotent_witness :
    ("output/1_transcribed.jsonl" ∈ OUTPUT_FILES)
      ∧ ((fun g => if g = "output/1_transcribed.jsonl" then some ""
            else if g = "output/2_perturbed.jsonl" then some "abc"
            else none) "output/1_transcribed.jsonl" = some "")
      ∧ (("output/1_transcribed.jsonl", 0)
          ∈ (clear_output_files true (fun g =>
              if g = "output/1_transcribed.jsonl" then some ""
              else if g = "output/2_perturbed.jsonl" then some "abc"
              else none)).1)
      ∧ (clear_output_files true (fun g =>
            if g = "output/1_transcribed.jsonl" then some ""
            else if g = "output/2_perturbed.jsonl" then some "abc"
            else none)).2 "output/1_transcribed.jsonl" = some "" := by
  have h := c10_clear_idempotent
    (fun g => if g = "output/1_transcribed.jsonl" then some ""
      else if g = "output/2_perturbed.jsonl" then some "abc"
      else none)
    "output/1_transcribed.jsonl" (by simp [OUTPUT_FILES]) (by simp)
  exact ⟨by simp [OUTPUT_FILES], by simp, h.1, h.2.1⟩

end Clear
